import Mathlib

/-!
Shallow embedding of the credential lifecycle subsystem of src/server.py:
the TokenStore class (CSRF state tokens, credential records, transparent
refresh) and the start_auth / oauth_callback request handlers.

Modelling conventions:
* Time is a Nat in seconds. The datetime comparison
  now - v > timedelta(minutes=10) is rendered as v + 600 < now, and the
  comprehension guard v > now - timedelta(minutes=10) as now < v + 600;
  both additive forms agree with exact datetime arithmetic at every input
  (no truncated subtraction artefacts).
* Python dicts are modelled as functions from String to Option.
* The random value produced by secrets.token_urlsafe is an injected
  parameter of generate_state and start_auth.
* The network exchange performed by requests.post is abstracted by an
  ExchangeOutcome oracle; functions that may call it additionally return
  the number of exchange calls made, so call-count properties are statable.
-/

/-- Ten minutes in seconds, the state-token TTL used by generate_state and
verify_state. -/
def stateTtl : Nat := 600

/-- Fifty minutes in seconds, the staleness threshold used by
refresh_token_if_needed. -/
def refreshThreshold : Nat := 3000

/-- Credential record: a parsed token-endpoint JSON body together with the
stored_at stamp that store_token adds. Fields absent from the JSON body are
none; in particular a raw exchange response normally has stored_at = none. -/
structure TokenData where
  access_token : Option String := none
  refresh_token : Option String := none
  stored_at : Option Nat := none
deriving DecidableEq

/-- Mutable state of the TokenStore object: the tokens dict (credential
records keyed by user id) and the states dict (live CSRF tokens keyed by
token string, valued by issue time). -/
structure TokenStore where
  tokens : String → Option TokenData
  states : String → Option Nat

/-- Python dict assignment d[k] = v. -/
def dictSet (m : String → Option α) (k : String) (v : α) : String → Option α :=
  fun k' => if k' = k then some v else m k'

/-- Python dict deletion: del d[k]. -/
def dictDel (m : String → Option α) (k : String) : String → Option α :=
  fun k' => if k' = k then none else m k'

/-- TokenStore.generate_state. The secrets.token_urlsafe result is the
injected parameter tok. Records tok at the current time, then rebuilds the
states dict keeping exactly the entries with v > cutoff where
cutoff = now - 10 minutes (rendered now < v + stateTtl), and returns the
token string. -/
def TokenStore.generate_state (ts : TokenStore) (tok : String) (now : Nat) :
    String × TokenStore :=
  let states1 := dictSet ts.states tok now
  (tok, { ts with states := fun k =>
      match states1 k with
      | some v => if now < v + stateTtl then some v else none
      | none => none })

/-- TokenStore.verify_state. Unknown token: false, store untouched. Known
token older than the TTL (now - t > 10 min, rendered t + stateTtl < now):
deleted, false. Known fresh token: deleted, true. -/
def TokenStore.verify_state (ts : TokenStore) (state : String) (now : Nat) :
    Bool × TokenStore :=
  match ts.states state with
  | none => (false, ts)
  | some t =>
    if t + stateTtl < now then
      (false, { ts with states := dictDel ts.states state })
    else
      (true, { ts with states := dictDel ts.states state })

/-- TokenStore.store_token: stores the record with the stored_at field set
to the current time, overwriting any stored_at already present in the
incoming data (the Python spread puts "stored_at" after **token_data). -/
def TokenStore.store_token (ts : TokenStore) (user_id : String)
    (token_data : TokenData) (now : Nat) : TokenStore :=
  { ts with tokens :=
      dictSet ts.tokens user_id { token_data with stored_at := some now } }

/-- TokenStore.get_token: plain dict lookup, no side effect. -/
def TokenStore.get_token (ts : TokenStore) (user_id : String) :
    Option TokenData :=
  ts.tokens user_id

/-- Python truthiness test for an optional string: None and the empty
string are falsy. -/
def pyFalsy : Option String → Bool
  | none => true
  | some s => s = ""

/-- Outcome of a single requests.post call to the token endpoint.
success carries the parsed 200-status JSON body; httpError is a completed
response with a non-200 status (carrying its text); timeout is
requests.exceptions.Timeout; netError is any other raised exception
(connection failure, malformed JSON, and so on). -/
inductive ExchangeOutcome where
  | success (body : TokenData)
  | httpError (text : String)
  | timeout
  | netError
deriving DecidableEq

/-- TokenStore.refresh_token_if_needed. Returns the Python return value,
the resulting store state, and the number of exchange calls made.
No record: none. Record not past the 50-minute threshold, or without a
stored_at stamp, or with a falsy refresh token (absent or empty string,
Python truthiness at the source line if refresh_token): returned as is, no
exchange. Otherwise one exchange: on a 200 response the body (with the old
refresh token carried over when the refresh_token key is absent from the
body — a key-presence check in the source, hence an Option match here) is
stored via store_token and returned; on a non-200 status or a raised
exception the code falls through and returns the stale record with the
store untouched. -/
def TokenStore.refresh_token_if_needed (ts : TokenStore) (user_id : String)
    (exch : ExchangeOutcome) (now : Nat) :
    Option TokenData × TokenStore × Nat :=
  match ts.get_token user_id with
  | none => (none, ts, 0)
  | some token_data =>
    match token_data.stored_at with
    | none => (some token_data, ts, 0)
    | some stored_at =>
      if stored_at + refreshThreshold < now then
        if pyFalsy token_data.refresh_token then (some token_data, ts, 0)
        else
          match exch with
          | .success body =>
            let new_token :=
              match body.refresh_token with
              | none =>
                { body with refresh_token := some (token_data.refresh_token.getD "") }
              | some _ => body
            (some new_token, ts.store_token user_id new_token now, 1)
          | _ => (some token_data, ts, 1)
      else (some token_data, ts, 0)

/-- Configuration surface read from the environment. A field is none when
the variable is unset; OWNER_EMAIL has a default so it is always a plain
string. -/
structure Config where
  clientId : Option String
  clientSecret : Option String
  redirectUri : Option String
  ownerEmail : String

/-- Structured result of the oauth_callback handler, one constructor per
distinct response of the source (status codes 400, 400, 400, 500, 504,
500, 200 respectively). -/
inductive CallbackResult where
  | oauthError (e : String)
  | missingCode
  | csrfFail
  | exchangeFailed (text : String)
  | exchangeTimeout
  | unexpectedError
  | connected (owner : String)
deriving DecidableEq

/-- The oauth_callback handler. The source checks are Python truthiness
tests, rendered with pyFalsy in source order: if error (truthy error, so
an empty-string error falls through); if not code (falsy code rejected as
missing); if not state or not verify_state(state) (a falsy state
short-circuits and never reaches verify_state); then the one exchange,
storing the body under the configured owner identity on success. Returns
the structured result, the resulting store, and the exchange call count. -/
def oauth_callback (cfg : Config) (ts : TokenStore)
    (code state error : Option String) (exch : ExchangeOutcome) (now : Nat) :
    CallbackResult × TokenStore × Nat :=
  if pyFalsy error = false then (.oauthError (error.getD ""), ts, 0)
  else if pyFalsy code then (.missingCode, ts, 0)
  else if pyFalsy state then (.csrfFail, ts, 0)
  else if (ts.verify_state (state.getD "") now).1 then
    match exch with
    | .success body =>
      (.connected cfg.ownerEmail,
       (ts.verify_state (state.getD "") now).2.store_token cfg.ownerEmail body now, 1)
    | .httpError t => (.exchangeFailed t, (ts.verify_state (state.getD "") now).2, 1)
    | .timeout => (.exchangeTimeout, (ts.verify_state (state.getD "") now).2, 1)
    | .netError => (.unexpectedError, (ts.verify_state (state.getD "") now).2, 1)
  else (.csrfFail, (ts.verify_state (state.getD "") now).2, 0)

/-- Scope list from the SCOPES constant of the source. -/
def SCOPES : List String := ["https://www.googleapis.com/auth/drive.metadata.readonly"]

/-- Uppercase hexadecimal digit, for percent-encoding. -/
def hexUpper (n : Nat) : Char :=
  if n < 10 then Char.ofNat (48 + n) else Char.ofNat (55 + n)

/-- Percent-encoding of one byte, uppercase hex as urllib produces. -/
def pctByte (b : Nat) : String :=
  "%" ++ String.singleton (hexUpper (b / 16)) ++ String.singleton (hexUpper (b % 16))

/-- UTF-8 byte sequence of a character, as Python encodes characters before
percent-encoding them. -/
def utf8Bytes (c : Char) : List Nat :=
  let n := c.toNat
  if n < 128 then [n]
  else if n < 2048 then [192 + n / 64, 128 + n % 64]
  else if n < 65536 then [224 + n / 4096, 128 + (n / 64) % 64, 128 + n % 64]
  else [240 + n / 262144, 128 + (n / 4096) % 64, 128 + (n / 64) % 64, 128 + n % 64]

/-- Characters urllib.parse.quote_plus never encodes (its always-safe set
with safe set to the empty string): ASCII alphanumerics and underscore,
dot, hyphen, tilde. -/
def safeChar (c : Char) : Bool :=
  c.isAlphanum || c = '_' || c = '.' || c = '-' || c = '~'

/-- quote_plus on one character: safe characters pass through, a space
becomes a plus, everything else is percent-encoded bytewise. -/
def quotePlusChar (c : Char) : String :=
  if safeChar c then String.singleton c
  else if c = ' ' then "+"
  else String.join ((utf8Bytes c).map pctByte)

/-- urllib.parse.quote_plus on a string. -/
def quotePlus (s : String) : String :=
  String.join (s.toList.map quotePlusChar)

/-- urllib.parse.urlencode on an ordered list of key-value pairs (the
default quote_via is quote_plus, applied to keys and values alike). -/
def urlencode (ps : List (String × String)) : String :=
  String.intercalate "&" (ps.map (fun p => quotePlus p.1 ++ "=" ++ quotePlus p.2))

/-- The params dict passed to urlencode by start_auth, in source order.
Option values are read with a default that the configuration check of
start_auth makes unreachable. -/
def authParams (cfg : Config) (state : String) : List (String × String) :=
  [("client_id", cfg.clientId.getD ""),
   ("redirect_uri", cfg.redirectUri.getD ""),
   ("response_type", "code"),
   ("scope", String.intercalate " " SCOPES),
   ("access_type", "offline"),
   ("prompt", "consent"),
   ("state", state)]

/-- Structured result of the start_auth handler: the 500 configuration
error, or the 200 response carrying the auth_url. -/
inductive StartAuthResult where
  | configError
  | authUrl (url : String)
deriving DecidableEq

/-- The start_auth handler. Rejects when any of the three OAuth
configuration values is falsy; otherwise issues one state token via
generate_state (the fresh random value is the injected parameter tok) and
returns the consent-endpoint URL built from authParams. -/
def start_auth (cfg : Config) (ts : TokenStore) (tok : String) (now : Nat) :
    StartAuthResult × TokenStore :=
  if pyFalsy cfg.clientId || pyFalsy cfg.clientSecret || pyFalsy cfg.redirectUri then
    (.configError, ts)
  else
    let r := ts.generate_state tok now
    (.authUrl ("https://accounts.google.com/o/oauth2/v2/auth?"
        ++ urlencode (authParams cfg r.1)), r.2)

/-- States of the TokenStore reachable from the freshly constructed object
through its operations and the two handlers. -/
inductive Reachable : TokenStore → Prop where
  | init : Reachable ⟨fun _ => none, fun _ => none⟩
  | gen (ts : TokenStore) (tok : String) (now : Nat) :
      Reachable ts → Reachable (ts.generate_state tok now).2
  | ver (ts : TokenStore) (s : String) (now : Nat) :
      Reachable ts → Reachable (ts.verify_state s now).2
  | store (ts : TokenStore) (u : String) (td : TokenData) (now : Nat) :
      Reachable ts → Reachable (ts.store_token u td now)
  | refresh (ts : TokenStore) (u : String) (exch : ExchangeOutcome) (now : Nat) :
      Reachable ts → Reachable (ts.refresh_token_if_needed u exch now).2.1
  | callback (cfg : Config) (ts : TokenStore) (code state error : Option String)
      (exch : ExchangeOutcome) (now : Nat) :
      Reachable ts → Reachable (oauth_callback cfg ts code state error exch now).2.1
  | auth (cfg : Config) (ts : TokenStore) (tok : String) (now : Nat) :
      Reachable ts → Reachable (start_auth cfg ts tok now).2

/-- C1: verify_state ts t now is true iff t is in the live set with age at
most the 10-minute TTL; in every case t is absent from the live set
afterwards, so an immediate second verification of t returns false at any
time, and a token issued more than the TTL in the past yields false even
on first use. -/
theorem verify_state_single_use (ts : TokenStore) (t : String) (now now2 : Nat) :
    ((ts.verify_state t now).1 = true ↔
      ∃ v, ts.states t = some v ∧ now ≤ v + stateTtl)
    ∧ (ts.verify_state t now).2.states t = none
    ∧ (((ts.verify_state t now).2).verify_state t now2).1 = false
    ∧ (∀ v, ts.states t = some v → v + stateTtl < now →
        (ts.verify_state t now).1 = false) := by
  cases h : ts.states t with
  | none =>
    simp [TokenStore.verify_state, h]
  | some v =>
    by_cases hv : v + stateTtl < now
    · simp [TokenStore.verify_state, h, hv, dictDel]
    · simp [TokenStore.verify_state, h, hv, dictDel]
      omega

/-- Witness for C1 at a concrete store: a token issued at time 0 verifies
successfully at time 600 (age exactly the TTL) and is gone afterwards. -/
theorem verify_state_single_use_witness :
    ((TokenStore.mk (fun _ => none) (fun k => if k = "tok" then some 0 else none)).verify_state
        "tok" 600).1 = true
    ∧ ((TokenStore.mk (fun _ => none) (fun k => if k = "tok" then some 0 else none)).verify_state
        "tok" 600).2.states "tok" = none :=
  ⟨(verify_state_single_use _ "tok" 600 0).1.mpr ⟨0, by decide, by decide⟩,
   (verify_state_single_use _ "tok" 600 0).2.1⟩

/-- Helper: the token returned by generate_state is the injected random
value. -/
theorem generate_state_fst (ts : TokenStore) (tok : String) (now : Nat) :
    (ts.generate_state tok now).1 = tok := rfl

/-- Helper: the freshly inserted token survives the lazy sweep of
generate_state, since its age is zero. -/
theorem generate_states_self (ts : TokenStore) (tok : String) (now : Nat) :
    (ts.generate_state tok now).2.states tok = some now := by
  have h : now < now + stateTtl := by simp [stateTtl]
  simp [TokenStore.generate_state, dictSet, h]

/-- Helper: effect of generate_state on every other key of the states
dict: kept exactly when strictly younger than the TTL. -/
theorem generate_states_other (ts : TokenStore) (tok : String) (now : Nat)
    (k : String) (hk : k ≠ tok) :
    (ts.generate_state tok now).2.states k =
      match ts.states k with
      | some v => if now < v + stateTtl then some v else none
      | none => none := by
  simp [TokenStore.generate_state, dictSet, hk]

/-- Helper: generate_state does not touch the credential dict. -/
theorem generate_tokens_eq (ts : TokenStore) (tok : String) (now : Nat) :
    (ts.generate_state tok now).2.tokens = ts.tokens := rfl

/-- Helper: verify_state does not touch the credential dict. -/
theorem verify_tokens_eq (ts : TokenStore) (s : String) (now : Nat) :
    (ts.verify_state s now).2.tokens = ts.tokens := by
  cases h : ts.states s with
  | none => simp [TokenStore.verify_state, h]
  | some v =>
    by_cases hv : v + stateTtl < now <;> simp [TokenStore.verify_state, h, hv]

/-- C7 counterexample: a token aged exactly the TTL (issued at 0, sweep at
600) is not yet expired — verify_state would still accept it — yet the
sweep in generate_state evicts it, so the sweep does not evict only the
tokens strictly older than the TTL. -/
theorem generate_state_evicts_unexpired_token :
    ((TokenStore.mk (fun _ => none)
        (fun k => if k = "old" then some 0 else none)).verify_state "old" 600).1 = true
    ∧ ((TokenStore.mk (fun _ => none)
        (fun k => if k = "old" then some 0 else none)).generate_state "new" 600).2.states "old"
      = none := by
  constructor <;> decide

/-- C7 amended: generate_state returns the fresh token, inserts it at the
current time, keeps every other token exactly when its age is strictly
below the TTL (so a token aged exactly the TTL is also evicted), and has
no effect on the credential dict. -/
theorem generate_state_insert_and_sweep (ts : TokenStore) (tok : String) (now : Nat) :
    (ts.generate_state tok now).1 = tok
    ∧ (ts.generate_state tok now).2.states tok = some now
    ∧ (∀ k v, k ≠ tok → ts.states k = some v →
        (ts.generate_state tok now).2.states k =
          if now < v + stateTtl then some v else none)
    ∧ (∀ k, k ≠ tok → ts.states k = none →
        (ts.generate_state tok now).2.states k = none)
    ∧ (ts.generate_state tok now).2.tokens = ts.tokens := by
  refine ⟨generate_state_fst ts tok now, generate_states_self ts tok now, ?_, ?_,
    generate_tokens_eq ts tok now⟩
  · intro k v hk hkv
    rw [generate_states_other ts tok now k hk, hkv]
  · intro k hk hkn
    rw [generate_states_other ts tok now k hk, hkn]

/-- Witness for the amended C7 at a concrete store: inserting a fresh
token at time 300 keeps a token issued at time 0 (age 300, below the TTL)
and leaves the credential dict untouched. -/
theorem generate_state_insert_and_sweep_witness :
    ((TokenStore.mk (fun _ => none)
        (fun k => if k = "old" then some 0 else none)).generate_state "new" 300).2.states "new"
      = some 300
    ∧ ((TokenStore.mk (fun _ => none)
        (fun k => if k = "old" then some 0 else none)).generate_state "new" 300).2.states "old"
      = if 300 < 0 + stateTtl then some 0 else none :=
  ⟨(generate_state_insert_and_sweep _ "new" 300).2.1,
   (generate_state_insert_and_sweep _ "new" 300).2.2.1 "old" 0 (by decide) (by decide)⟩

/-- C8 counterexample: an error parameter that is present but empty
(reachable as the query error with an empty value) is falsy in Python, so
the source falls through the error check: with a valid code and a live
state the callback consults StateGuard (the state token is consumed from
the live set), makes the exchange call, and reports connected — it is not
rejected as a CallbackError. -/
theorem callback_empty_error_not_short_circuit :
    (oauth_callback (Config.mk (some "cid") (some "sec") (some "uri") "own")
        (TokenStore.mk (fun _ => none) (fun k => if k = "S" then some 0 else none))
        (some "c") (some "S") (some "")
        (.success (TokenData.mk (some "A") (some "R") none)) 10).1
      = CallbackResult.connected "own"
    ∧ (oauth_callback (Config.mk (some "cid") (some "sec") (some "uri") "own")
        (TokenStore.mk (fun _ => none) (fun k => if k = "S" then some 0 else none))
        (some "c") (some "S") (some "")
        (.success (TokenData.mk (some "A") (some "R") none)) 10).2.2 = 1
    ∧ (oauth_callback (Config.mk (some "cid") (some "sec") (some "uri") "own")
        (TokenStore.mk (fun _ => none) (fun k => if k = "S" then some 0 else none))
        (some "c") (some "S") (some "")
        (.success (TokenData.mk (some "A") (some "R") none)) 10).2.1.states "S" = none := by
  refine ⟨?_, ?_, ?_⟩ <;> decide

/-- C8 amended: when the error query parameter is present and non-empty
(truthy in Python), oauth_callback rejects with the echoed
authorization-server error, makes no exchange call, and returns the store
(both the live-token set and the credential dict) untouched, whatever the
code and state parameters hold. -/
theorem callback_error_short_circuits (cfg : Config) (ts : TokenStore)
    (code state : Option String) (e : String) (he : e ≠ "")
    (exch : ExchangeOutcome) (now : Nat) :
    oauth_callback cfg ts code state (some e) exch now = (.oauthError e, ts, 0) := by
  simp [oauth_callback, pyFalsy, he]

/-- Witness for the amended C8: error access_denied short-circuits with the
store untouched and zero exchange calls. -/
theorem callback_error_short_circuits_witness :
    oauth_callback (Config.mk (some "cid") (some "sec") (some "uri") "own")
        (TokenStore.mk (fun _ => none) (fun _ => none))
        (some "c") (some "S") (some "access_denied") .timeout 5
      = (.oauthError "access_denied", TokenStore.mk (fun _ => none) (fun _ => none), 0) :=
  callback_error_short_circuits _ _ (some "c") (some "S") "access_denied"
    (by decide) .timeout 5

/-- C9: for an identity with no stored record, refresh_token_if_needed
returns none with no exchange call and no mutation, at every time. -/
theorem refresh_absent_identity (ts : TokenStore) (u : String)
    (exch : ExchangeOutcome) (now : Nat) (h : ts.tokens u = none) :
    ts.refresh_token_if_needed u exch now = (none, ts, 0) := by
  simp [TokenStore.refresh_token_if_needed, TokenStore.get_token, h]

/-- Witness for C9 on the freshly constructed store at two times. -/
theorem refresh_absent_identity_witness :
    (TokenStore.mk (fun _ => none) (fun _ => none)).refresh_token_if_needed
        "owner@example.com" .timeout 0
      = (none, TokenStore.mk (fun _ => none) (fun _ => none), 0)
    ∧ (TokenStore.mk (fun _ => none) (fun _ => none)).refresh_token_if_needed
        "owner@example.com" .timeout 999999
      = (none, TokenStore.mk (fun _ => none) (fun _ => none), 0) :=
  ⟨refresh_absent_identity _ "owner@example.com" .timeout 0 rfl,
   refresh_absent_identity _ "owner@example.com" .timeout 999999 rfl⟩

/-- C2 counterexample: a callback with the state parameter missing but the
code parameter also missing is rejected as a malformed callback (missing
authorization code), not as a CSRF failure, because the code check runs
before the state check. -/
theorem callback_missing_state_not_csrf :
    (oauth_callback (Config.mk (some "cid") (some "sec") (some "uri") "own")
        (TokenStore.mk (fun _ => none) (fun _ => none))
        none none none .timeout 0).1 = CallbackResult.missingCode
    ∧ CallbackResult.missingCode ≠ CallbackResult.csrfFail := by
  constructor <;> decide

/-- C2 amended: when the error parameter is absent and the code parameter
is present and non-empty (truthy, so it passes the missing-code check), a
callback whose state is missing, falsy, unknown, or older than the TTL is
rejected as a CSRF failure with zero exchange calls and an unchanged
credential dict. -/
theorem callback_csrf_check_before_exchange (cfg : Config) (ts : TokenStore)
    (c : String) (state : Option String) (exch : ExchangeOutcome) (now : Nat)
    (hc : c ≠ "")
    (h : state = none ∨ ∃ s, state = some s ∧
        (s = "" ∨ ts.states s = none ∨ ∃ v, ts.states s = some v ∧ v + stateTtl < now)) :
    (oauth_callback cfg ts (some c) state none exch now).1 = CallbackResult.csrfFail
    ∧ (oauth_callback cfg ts (some c) state none exch now).2.2 = 0
    ∧ (oauth_callback cfg ts (some c) state none exch now).2.1.tokens = ts.tokens := by
  rcases h with h | ⟨s, hs, h⟩
  · subst h
    simp [oauth_callback, pyFalsy, hc]
  · subst hs
    rcases h with h | h | ⟨v, hv, hlt⟩
    · subst h
      simp [oauth_callback, pyFalsy, hc]
    · by_cases he : s = ""
      · simp [oauth_callback, pyFalsy, hc, he]
      · simp [oauth_callback, pyFalsy, hc, he, TokenStore.verify_state, h]
    · by_cases he : s = ""
      · simp [oauth_callback, pyFalsy, hc, he]
      · simp [oauth_callback, pyFalsy, hc, he, TokenStore.verify_state, hv, hlt]

/-- Witness for the amended C2: a syntactically valid but unknown state is
rejected as a CSRF failure with zero exchange calls, even though the
exchange oracle would have succeeded. -/
theorem callback_csrf_check_before_exchange_witness :
    (oauth_callback (Config.mk (some "cid") (some "sec") (some "uri") "own")
        (TokenStore.mk (fun _ => none) (fun _ => none))
        (some "abc") (some "forged") none
        (.success (TokenData.mk (some "A") (some "R") none)) 0).1 = CallbackResult.csrfFail
    ∧ (oauth_callback (Config.mk (some "cid") (some "sec") (some "uri") "own")
        (TokenStore.mk (fun _ => none) (fun _ => none))
        (some "abc") (some "forged") none
        (.success (TokenData.mk (some "A") (some "R") none)) 0).2.2 = 0 :=
  ⟨(callback_csrf_check_before_exchange _ _ "abc" (some "forged") _ 0 (by decide)
      (Or.inr ⟨"forged", rfl, Or.inr (Or.inl rfl)⟩)).1,
   (callback_csrf_check_before_exchange _ _ "abc" (some "forged") _ 0 (by decide)
      (Or.inr ⟨"forged", rfl, Or.inr (Or.inl rfl)⟩)).2.1⟩

/-- C5: once the error, code, and CSRF checks pass, a successful exchange
stores the response body under the configured owner identity (whatever the
callback parameters were) with the connected report naming that identity,
while a failed or timed-out exchange leaves the credential dict untouched. -/
theorem callback_stores_under_configured_owner (cfg : Config) (ts : TokenStore)
    (c s : String) (exch : ExchangeOutcome) (now : Nat)
    (hc : c ≠ "") (hs : s ≠ "") (hv : (ts.verify_state s now).1 = true) :
    (∀ body, exch = .success body →
      oauth_callback cfg ts (some c) (some s) none exch now =
        (.connected cfg.ownerEmail,
         (ts.verify_state s now).2.store_token cfg.ownerEmail body now, 1))
    ∧ (∀ body, exch = .success body →
        (oauth_callback cfg ts (some c) (some s) none exch now).2.1.tokens =
          dictSet ts.tokens cfg.ownerEmail { body with stored_at := some now })
    ∧ ((∀ body, exch ≠ .success body) →
        (oauth_callback cfg ts (some c) (some s) none exch now).2.1.tokens = ts.tokens) := by
  refine ⟨?_, ?_, ?_⟩
  · intro body hb
    subst hb
    simp [oauth_callback, pyFalsy, hc, hs, hv]
  · intro body hb
    subst hb
    simp [oauth_callback, pyFalsy, hc, hs, hv, TokenStore.store_token, verify_tokens_eq]
  · intro hne
    cases exch with
    | success body => exact absurd rfl (hne body)
    | httpError t => simp [oauth_callback, pyFalsy, hc, hs, hv, verify_tokens_eq]
    | timeout => simp [oauth_callback, pyFalsy, hc, hs, hv, verify_tokens_eq]
    | netError => simp [oauth_callback, pyFalsy, hc, hs, hv, verify_tokens_eq]

/-- Witness for C5: with a live state token issued at time 0 and verified
at time 10, a successful exchange reports connected with the configured
owner and stores the body under that owner. -/
theorem callback_stores_under_configured_owner_witness :
    oauth_callback (Config.mk (some "cid") (some "sec") (some "uri") "own")
        (TokenStore.mk (fun _ => none) (fun k => if k = "S" then some 0 else none))
        (some "abc") (some "S") none
        (.success (TokenData.mk (some "A") (some "R") none)) 10
      = (.connected "own",
         ((TokenStore.mk (fun _ => none)
             (fun k => if k = "S" then some 0 else none)).verify_state "S" 10).2.store_token
           "own" (TokenData.mk (some "A") (some "R") none) 10, 1) :=
  (callback_stores_under_configured_owner _ _ "abc" "S" _ 10 (by decide) (by decide)
    (by decide)).1 _ rfl

/-- C3 counterexample: a record stored 51 minutes ago with a refresh token,
refreshed through an exchange returning only a new access token, triggers
the exchange, but the value returned to the caller is the raw exchange
body (with the refresh token carried over and no stored_at stamp) and so
differs from the record placed in the store, which is stamped with the
refresh time. -/
theorem refresh_returns_unstamped_record :
    ((TokenStore.mk
        (fun k => if k = "own" then some (TokenData.mk (some "old") (some "R") (some 0)) else none)
        (fun _ => none)).refresh_token_if_needed "own"
        (.success (TokenData.mk (some "A") none none)) 3060).2.2 = 1
    ∧ ((TokenStore.mk
        (fun k => if k = "own" then some (TokenData.mk (some "old") (some "R") (some 0)) else none)
        (fun _ => none)).refresh_token_if_needed "own"
        (.success (TokenData.mk (some "A") none none)) 3060).1
      ≠ ((TokenStore.mk
        (fun k => if k = "own" then some (TokenData.mk (some "old") (some "R") (some 0)) else none)
        (fun _ => none)).refresh_token_if_needed "own"
        (.success (TokenData.mk (some "A") none none)) 3060).2.1.tokens "own" := by
  constructor <;> decide

/-- C3 amended: for a stored record with a stored_at stamp,
refresh_token_if_needed makes an exchange call iff the record is older
than the 50-minute threshold and holds a refresh token, and then exactly
one; when not triggered the stored record is returned unmodified with the
store untouched; when a triggered exchange succeeds but the response omits
a refresh token, the stored record is the response with the original
refresh token carried over and a fresh stored_at stamp, and the returned
value is that same response with the original refresh token but without
the fresh stored_at stamp. -/
theorem refresh_threshold_and_carryover (ts : TokenStore) (u : String)
    (td : TokenData) (s : Nat) (exch : ExchangeOutcome) (now : Nat)
    (h1 : ts.tokens u = some td) (h2 : td.stored_at = some s) :
    ((ts.refresh_token_if_needed u exch now).2.2
        = if s + refreshThreshold < now ∧ pyFalsy td.refresh_token = false then 1 else 0)
    ∧ (¬ s + refreshThreshold < now →
        ts.refresh_token_if_needed u exch now = (some td, ts, 0))
    ∧ (pyFalsy td.refresh_token = true →
        ts.refresh_token_if_needed u exch now = (some td, ts, 0))
    ∧ (∀ rt body, td.refresh_token = some rt → rt ≠ "" → s + refreshThreshold < now →
        exch = .success body → body.refresh_token = none →
        (ts.refresh_token_if_needed u exch now).1
            = some { body with refresh_token := some rt }
        ∧ (ts.refresh_token_if_needed u exch now).2.1.tokens u
            = some { body with refresh_token := some rt, stored_at := some now }) := by
  refine ⟨?_, ?_, ?_, ?_⟩
  · by_cases ht : s + refreshThreshold < now
    · cases hr : pyFalsy td.refresh_token with
      | true =>
        simp [TokenStore.refresh_token_if_needed, TokenStore.get_token, h1, h2, ht, hr]
      | false =>
        cases exch <;>
          simp [TokenStore.refresh_token_if_needed, TokenStore.get_token, h1, h2, ht, hr]
    · simp [TokenStore.refresh_token_if_needed, TokenStore.get_token, h1, h2, ht]
  · intro ht
    simp [TokenStore.refresh_token_if_needed, TokenStore.get_token, h1, h2, ht]
  · intro hr
    by_cases ht : s + refreshThreshold < now <;>
      simp [TokenStore.refresh_token_if_needed, TokenStore.get_token, h1, h2, ht, hr]
  · intro rt body hrt hrne hlt hex hbn
    subst hex
    constructor
    · simp [TokenStore.refresh_token_if_needed, TokenStore.get_token, pyFalsy, h1, h2,
        hlt, hrt, hrne, hbn]
    · simp [TokenStore.refresh_token_if_needed, TokenStore.get_token, pyFalsy, h1, h2,
        hlt, hrt, hrne, hbn, TokenStore.store_token, dictSet]

/-- Witness for the amended C3 at concrete records: a record 49 minutes
old is returned untouched with no exchange call, and a record 51 minutes
old refreshed by a body with only an access token keeps the old refresh
token in both the returned value and the freshly stamped stored record. -/
theorem refresh_threshold_and_carryover_witness :
    (TokenStore.mk
        (fun k => if k = "own" then some (TokenData.mk (some "old") (some "R") (some 0)) else none)
        (fun _ => none)).refresh_token_if_needed "own"
        (.success (TokenData.mk (some "A") none none)) 2940
      = (some (TokenData.mk (some "old") (some "R") (some 0)),
         TokenStore.mk
           (fun k => if k = "own" then some (TokenData.mk (some "old") (some "R") (some 0)) else none)
           (fun _ => none), 0)
    ∧ ((TokenStore.mk
        (fun k => if k = "own" then some (TokenData.mk (some "old") (some "R") (some 0)) else none)
        (fun _ => none)).refresh_token_if_needed "own"
        (.success (TokenData.mk (some "A") none none)) 3060).1
      = some (TokenData.mk (some "A") (some "R") none)
    ∧ ((TokenStore.mk
        (fun k => if k = "own" then some (TokenData.mk (some "old") (some "R") (some 0)) else none)
        (fun _ => none)).refresh_token_if_needed "own"
        (.success (TokenData.mk (some "A") none none)) 3060).2.1.tokens "own"
      = some (TokenData.mk (some "A") (some "R") (some 3060)) :=
  ⟨(refresh_threshold_and_carryover _ "own" (TokenData.mk (some "old") (some "R") (some 0))
      0 _ 2940 (by decide) rfl).2.1 (by decide),
   ((refresh_threshold_and_carryover _ "own" (TokenData.mk (some "old") (some "R") (some 0))
      0 _ 3060 (by decide) rfl).2.2.2
      "R" (TokenData.mk (some "A") none none) rfl (by decide) (by decide) rfl rfl).1,
   ((refresh_threshold_and_carryover _ "own" (TokenData.mk (some "old") (some "R") (some 0))
      0 _ 3060 (by decide) rfl).2.2.2
      "R" (TokenData.mk (some "A") none none) rfl (by decide) (by decide) rfl rfl).2⟩

/-- C4: for a record due for refresh (stamped, stale, with a truthy —
present and non-empty — refresh token, so the exchange is attempted), a
failed exchange — non-200 status, timeout, or any other raised exception —
yields the stale record unchanged as a normal return value, with the store
unmutated, after exactly the one failed exchange call. -/
theorem refresh_failure_returns_stale (ts : TokenStore) (u : String)
    (td : TokenData) (s : Nat) (rt : String) (exch : ExchangeOutcome) (now : Nat)
    (h1 : ts.tokens u = some td) (h2 : td.stored_at = some s)
    (h3 : td.refresh_token = some rt) (h3b : rt ≠ "")
    (h4 : s + refreshThreshold < now)
    (h5 : ∀ body, exch ≠ .success body) :
    ts.refresh_token_if_needed u exch now = (some td, ts, 1) := by
  have hpf : pyFalsy td.refresh_token = false := by simp [pyFalsy, h3, h3b]
  cases exch with
  | success body => exact absurd rfl (h5 body)
  | httpError t =>
    simp [TokenStore.refresh_token_if_needed, TokenStore.get_token, h1, h2, hpf, h4]
  | timeout =>
    simp [TokenStore.refresh_token_if_needed, TokenStore.get_token, h1, h2, hpf, h4]
  | netError =>
    simp [TokenStore.refresh_token_if_needed, TokenStore.get_token, h1, h2, hpf, h4]

/-- Witness for C4: a timed-out refresh of a record stored 51 minutes ago
returns the stale record with the store untouched. -/
theorem refresh_failure_returns_stale_witness :
    (TokenStore.mk
        (fun k => if k = "own" then some (TokenData.mk (some "old") (some "R") (some 0)) else none)
        (fun _ => none)).refresh_token_if_needed "own" .timeout 3060
      = (some (TokenData.mk (some "old") (some "R") (some 0)),
         TokenStore.mk
           (fun k => if k = "own" then some (TokenData.mk (some "old") (some "R") (some 0)) else none)
           (fun _ => none), 1) :=
  refresh_failure_returns_stale _ "own" (TokenData.mk (some "old") (some "R") (some 0))
    0 "R" .timeout 3060 (by decide) rfl rfl (by decide) (by decide)
    (fun body h => by cases h)

/-- C6: start_auth reports the configuration error exactly when one of the
three OAuth configuration values is falsy; otherwise it returns the
consent-endpoint URL whose query string is the encoding of exactly the
seven parameters client_id, redirect_uri, response_type=code, scope
(space-joined scope list), access_type=offline, prompt=consent, and the
freshly issued state, which is live in the state set afterwards, while no
other state entry is introduced and the credential dict is untouched. -/
theorem start_auth_config_and_url (cfg : Config) (ts : TokenStore)
    (tok : String) (now : Nat) :
    ((pyFalsy cfg.clientId || pyFalsy cfg.clientSecret || pyFalsy cfg.redirectUri) = true →
      start_auth cfg ts tok now = (.configError, ts))
    ∧ ((pyFalsy cfg.clientId || pyFalsy cfg.clientSecret || pyFalsy cfg.redirectUri) = false →
        (start_auth cfg ts tok now).1 =
          .authUrl ("https://accounts.google.com/o/oauth2/v2/auth?" ++ urlencode
            [("client_id", cfg.clientId.getD ""),
             ("redirect_uri", cfg.redirectUri.getD ""),
             ("response_type", "code"),
             ("scope", String.intercalate " " SCOPES),
             ("access_type", "offline"),
             ("prompt", "consent"),
             ("state", tok)])
        ∧ (start_auth cfg ts tok now).2.states tok = some now
        ∧ (∀ k, k ≠ tok →
            (start_auth cfg ts tok now).2.states k = ts.states k
            ∨ (start_auth cfg ts tok now).2.states k = none)
        ∧ (start_auth cfg ts tok now).2.tokens = ts.tokens) := by
  constructor
  · intro h
    simp [start_auth, h]
  · intro h
    refine ⟨?_, ?_, ?_, ?_⟩
    · simp [start_auth, h, authParams]
      rfl
    · simp [start_auth, h, generate_states_self]
    · intro k hk
      have h2 := generate_states_other ts tok now k hk
      simp only [start_auth, h, Bool.false_eq_true, if_false]
      cases hkv : ts.states k with
      | none => right; rw [h2, hkv]
      | some v =>
        by_cases hlt : now < v + stateTtl
        · left
          rw [h2, hkv]
          simp [hlt]
        · right
          rw [h2, hkv]
          simp [hlt]
    · simp [start_auth, h, generate_tokens_eq]

set_option maxRecDepth 100000 in
/-- Witness for C6 with concrete configuration values: the produced URL is
the fully encoded consent URL, and the fresh state is live afterwards. -/
theorem start_auth_config_and_url_witness :
    (start_auth (Config.mk (some "id") (some "sec") (some "http://localhost/cb") "own")
        (TokenStore.mk (fun _ => none) (fun _ => none)) "tok123" 7).1
      = .authUrl ("https://accounts.google.com/o/oauth2/v2/auth?client_id=id&redirect_uri=http%3A%2F%2Flocalhost%2Fcb&response_type=code&scope=https%3A%2F%2Fwww.googleapis.com%2Fauth%2Fdrive.metadata.readonly&access_type=offline&prompt=consent&state=tok123")
    ∧ (start_auth (Config.mk (some "id") (some "sec") (some "http://localhost/cb") "own")
        (TokenStore.mk (fun _ => none) (fun _ => none)) "tok123" 7).2.states "tok123"
      = some 7 := by
  constructor
  · rw [((start_auth_config_and_url
      (Config.mk (some "id") (some "sec") (some "http://localhost/cb") "own")
      (TokenStore.mk (fun _ => none) (fun _ => none)) "tok123" 7).2 (by decide)).1]
    decide
  · exact ((start_auth_config_and_url
      (Config.mk (some "id") (some "sec") (some "http://localhost/cb") "own")
      (TokenStore.mk (fun _ => none) (fun _ => none)) "tok123" 7).2 (by decide)).2.1

/-- Helper: start_auth does not touch the credential dict. -/
theorem start_auth_tokens_eq (cfg : Config) (ts : TokenStore) (tok : String) (now : Nat) :
    (start_auth cfg ts tok now).2.tokens = ts.tokens := by
  unfold start_auth
  split <;> rfl

/-- Helper: a credential dict all of whose records carry a stored_at stamp
keeps that property after inserting a record that is itself stamped. -/
theorem dictSet_stamped_isSome (m : String → Option TokenData) (k : String)
    (td0 : TokenData) (now : Nat) (hst : td0.stored_at = some now)
    (ih : ∀ u td, m u = some td → td.stored_at.isSome = true) :
    ∀ u td, dictSet m k td0 u = some td → td.stored_at.isSome = true := by
  intro u td h
  unfold dictSet at h
  split at h
  · injection h with h2
    rw [← h2, hst]
    rfl
  · exact ih u td h

/-- Helper: refresh_token_if_needed preserves the all-records-stamped
property of the credential dict, mutating it only through store_token. -/
theorem refresh_preserves_stamped (ts : TokenStore) (u0 : String)
    (exch : ExchangeOutcome) (now : Nat)
    (ih : ∀ u td, ts.tokens u = some td → td.stored_at.isSome = true) :
    ∀ u td, (ts.refresh_token_if_needed u0 exch now).2.1.tokens u = some td →
      td.stored_at.isSome = true := by
  intro u td h
  unfold TokenStore.refresh_token_if_needed at h
  split at h
  · exact ih u td h
  · split at h
    · exact ih u td h
    · split at h
      · split at h
        · exact ih u td h
        · split at h
          · exact dictSet_stamped_isSome ts.tokens u0 _ now rfl ih u td h
          · exact ih u td h
      · exact ih u td h

/-- Helper: oauth_callback preserves the all-records-stamped property of
the credential dict, mutating it only through store_token on the verified
store. -/
theorem callback_preserves_stamped (cfg : Config) (ts : TokenStore)
    (code state error : Option String) (exch : ExchangeOutcome) (now : Nat)
    (ih : ∀ u td, ts.tokens u = some td → td.stored_at.isSome = true) :
    ∀ u td, (oauth_callback cfg ts code state error exch now).2.1.tokens u = some td →
      td.stored_at.isSome = true := by
  have ih2 : ∀ s, ∀ u td, (ts.verify_state s now).2.tokens u = some td →
      td.stored_at.isSome = true := by
    intro s
    rw [verify_tokens_eq]
    exact ih
  intro u td h
  unfold oauth_callback at h
  split at h
  · exact ih u td h
  · split at h
    · exact ih u td h
    · split at h
      · exact ih u td h
      · split at h
        · split at h
          · exact dictSet_stamped_isSome _ cfg.ownerEmail _ now rfl (ih2 _) u td h
          · exact ih2 _ u td h
          · exact ih2 _ u td h
          · exact ih2 _ u td h
        · exact ih2 _ u td h

/-- C10: store_token always stamps the stored record with the time of the
store call, overwriting any stored_at field the incoming token data
already carried; consequently in every reachable state of the store each
credential record readable from the tokens dict carries a stored_at stamp,
so the staleness comparison in refresh_token_if_needed always measures
against an actual store time. -/
theorem store_token_stamps_current_time :
    (∀ (ts : TokenStore) (u : String) (td : TokenData) (now : Nat),
      (ts.store_token u td now).tokens u = some { td with stored_at := some now })
    ∧ (∀ ts : TokenStore, Reachable ts → ∀ u td, ts.tokens u = some td →
        td.stored_at.isSome = true) := by
  constructor
  · intro ts u td now
    simp [TokenStore.store_token, dictSet]
  · intro ts hr
    induction hr with
    | init => intro u td h; exact Option.noConfusion h
    | gen ts tok now _ ih =>
      intro u td h
      rw [generate_tokens_eq] at h
      exact ih u td h
    | ver ts s now _ ih =>
      intro u td h
      rw [verify_tokens_eq] at h
      exact ih u td h
    | store ts u0 td0 now _ ih =>
      exact dictSet_stamped_isSome ts.tokens u0 _ now rfl ih
    | refresh ts u0 exch now _ ih =>
      exact refresh_preserves_stamped ts u0 exch now ih
    | callback cfg ts code state error exch now _ ih =>
      exact callback_preserves_stamped cfg ts code state error exch now ih
    | auth cfg ts tok now _ ih =>
      intro u td h
      rw [start_auth_tokens_eq] at h
      exact ih u td h

/-- Witness for C10: storing a body that already carries a (stale)
stored_at field of 999 at time 5 yields a record stamped 5, and that
record, read back from a reachable store, carries a stamp. -/
theorem store_token_stamps_current_time_witness :
    ((TokenStore.mk (fun _ => none) (fun _ => none)).store_token "u"
        (TokenData.mk (some "a") none (some 999)) 5).tokens "u"
      = some (TokenData.mk (some "a") none (some 5))
    ∧ (TokenData.mk (some "a") none (some 5)).stored_at.isSome = true :=
  ⟨store_token_stamps_current_time.1 (TokenStore.mk (fun _ => none) (fun _ => none))
      "u" (TokenData.mk (some "a") none (some 999)) 5,
   store_token_stamps_current_time.2
      ((TokenStore.mk (fun _ => none) (fun _ => none)).store_token "u"
        (TokenData.mk (some "a") none (some 999)) 5)
      (Reachable.store (TokenStore.mk (fun _ => none) (fun _ => none)) "u"
        (TokenData.mk (some "a") none (some 999)) 5 Reachable.init)
      "u" (TokenData.mk (some "a") none (some 5)) (by decide)⟩
